import Mathlib

/-!
A verification development for the `uplook` value-resolution engine
(repository `smetj/uplook`).  The definitions below are a shallow embedding
of `uplook/__init__.py` (the importable module; `uplook/uplook.py` is an
older Python-2-only variant that the package does not import).  Strings are
modelled as `List Char` inside the parsing layer and as `String` elsewhere;
Python dictionaries are association lists preserving insertion order;
exceptions are modelled with `Except`.
-/

namespace Uplook

/-- Python regex `\s` over ASCII text: space, tab, newline, vertical
tab, form feed, carriage return. -/
def isWS (c : Char) : Bool :=
  c == ' ' || c == '\t' || c == '\n' || c == '\x0b' || c == '\x0c' || c == '\r'

/-- Python regex `\w` over ASCII text: letters, digits and underscore. -/
def isWordChar (c : Char) : Bool := c.isAlphanum || c == '_'

/-- Python `str.lstrip()` with no argument: drop leading whitespace. -/
def lstripWS (l : List Char) : List Char := l.dropWhile isWS

/-- Python `str.rstrip()` with no argument: drop trailing whitespace. -/
def rstripWS (l : List Char) : List Char := (l.reverse.dropWhile isWS).reverse

/-- `value.lstrip().rstrip()` as applied to the captured reference text in
`UpLook.__replaceLookup` (line 145 of `uplook/__init__.py`). -/
def stripWS (l : List Char) : List Char := rstripWS (lstripWS l)

/-- The `type` group of the expression regex: `~` is a static lookup, `~~`
a dynamic one. -/
inductive LookupKind where
  | static
  | dynamic
deriving DecidableEq, Repr

/-- The regex piece `\s?`: at most one whitespace character.  The
backtracking here is deterministic: a whitespace character can never be
matched by the `\w+?` or `\(` that follows, so whenever the head is
whitespace the `\s?` must consume it. -/
def skipOneWS : List Char → List Char
  | [] => []
  | c :: rest => if isWS c then rest else c :: rest

/-- Python `$` (without MULTILINE) also matches just before a single
trailing newline, so `re.match(..., value)` accepts one `'\n'` after the
closing parenthesis. -/
def stripOneTrailingNewline (l : List Char) : List Char :=
  if l.getLast? = some '\n' then l.dropLast else l

/-- The part of the expression regex after the sigil:
`\s?(?P<function>\w+?)\s?\((?P<ref>.*?)\)$`.
`\w+?` under the following `\s?\(` deterministically captures the maximal
run of word characters (word characters are neither whitespace nor `(`),
and `.*?\)$` captures everything up to the final `)` at the end of the
string; `.` does not match a newline, so a newline inside the captured
reference text makes the whole match fail. -/
def matchAfterSigil (kind : LookupKind) (s : List Char) :
    Option (LookupKind × List Char × List Char) :=
  let s1 := skipOneWS s
  let fname := s1.takeWhile isWordChar
  let s2 := s1.dropWhile isWordChar
  if fname = [] then none
  else
    match skipOneWS s2 with
    | '(' :: rest =>
      let rest' := stripOneTrailingNewline rest
      match rest'.getLast? with
      | some ')' =>
        let ref := rest'.dropLast
        if '\n' ∈ ref then none else some (kind, fname, ref)
      | _ => none
    | _ => none

/-- Embeds `re.match('(?P<type>~~?)\s?(?P<function>\w+?)\s?\((?P<ref>.*?)\)$', value)`
from `UpLook.__replaceLookup` (line 136), returning the three named groups.
When the value starts with two tildes the greedy `~~?` commits to both:
falling back to a single `~` would leave the second tilde to `\s?` or
`\w+?`, neither of which can match it, so no cross-alternative
backtracking is possible. -/
def matchLookup : List Char → Option (LookupKind × List Char × List Char)
  | '~' :: rest =>
    match rest with
    | c :: rest2 =>
      if c = '~' then matchAfterSigil .dynamic rest2
      else matchAfterSigil .static (c :: rest2)
    | [] => matchAfterSigil .static []
  | _ => none

/-- A value produced by the reference evaluator (`getString`): `undef`
models the `Undef()` marker object, `null` models Python `None`. -/
inductive RefVal where
  | undef
  | null
  | bool (b : Bool)
  | int (n : Nat)
  | float (lit : String)
  | str (s : String)
deriving DecidableEq, Repr

/-- The exceptions the engine can raise: `uplook.errors.NoSuchValue`,
a plain `Exception`, and a dict `KeyError`. -/
inductive Err where
  | noSuchValue (msg : String)
  | exceptionErr (msg : String)
  | keyError (key : String)
deriving DecidableEq, Repr

/-- `int(value)` for a string of decimal digits. -/
def natOfDigits (l : List Char) : Nat :=
  l.foldl (fun acc c => 10 * acc + (c.toNat - '0'.toNat)) 0

/-- The regex `^\d+$`. -/
def isDigits (l : List Char) : Bool := !l.isEmpty && l.all (·.isDigit)

/-- The regex `^\d+\.\d+$`. -/
def isFloatLit (l : List Char) : Bool :=
  let a := l.takeWhile (·.isDigit)
  let rest := l.dropWhile (·.isDigit)
  !a.isEmpty &&
    (match rest with
     | '.' :: b => !b.isEmpty && b.all (·.isDigit)
     | _ => false)

/-- Embeds the inner `getString` of `UpLook.__processRef` (lines 242-259).
`none` stands for an absent optional regex group (`m.group(3)` is `None`).
Notably the source tests `value.endswith('"') and value.endswith('"')` -
the same trailing-quote condition twice, with no leading-quote test - and
`value.replace('"', '')` removes every double-quote character, not only the
surrounding pair; both are kept exactly as written.  A `float` is
represented by its literal text (no claim computes with float values). -/
def getString : Option (List Char) → Except Err RefVal
  | none => .ok .undef
  | some value =>
    if value.getLast? = some '"' ∧ value.getLast? = some '"' then
      .ok (.str ⟨value.filter (· != '"')⟩)
    else if value = "true".toList then .ok (.bool true)
    else if value = "false".toList then .ok (.bool false)
    else if value = "none".toList then .ok .null
    else if isDigits value then .ok (.int (natOfDigits value))
    else if isFloatLit value then .ok (.float ⟨value⟩)
    else .error (.exceptionErr ("Invalid value " ++ String.mk value ++ "."))

/-- Split at the first comma, if any. -/
def splitFirstComma : List Char → Option (List Char × List Char)
  | [] => none
  | c :: rest =>
    if c = ',' then some ([], rest)
    else
      match splitFirstComma rest with
      | none => none
      | some (a, b) => some (c :: a, b)

/-- Embeds `UpLook.__processRef` (lines 232-265).  The outer regex
`^((\"?.*?\"?)|false|true|none)(?:,\s*((\"?.*?\"?)|false|true|none))?$`
is applied to newline-free text (the expression regex's `.*?` group cannot
capture a newline), where its first alternative `\"?.*?\"?` matches any
text at all; the lazy group therefore captures exactly the prefix before
the first comma (or the whole text when there is none), `\s*` greedily
eats the whitespace after that comma, and the rest is group 3, so the
match never fails on this domain.  Python builds the result tuple left to
right, hence group 1 is evaluated (and may raise) before group 3. -/
def processRef (ref : List Char) : Except Err (RefVal × RefVal) :=
  match splitFirstComma ref with
  | none =>
    match getString (some ref) with
    | .error e => .error e
    | .ok r =>
      match getString none with
      | .error e => .error e
      | .ok d => .ok (r, d)
  | some (a, b) =>
    match getString (some a) with
    | .error e => .error e
    | .ok r =>
      match getString (some (lstripWS b)) with
      | .error e => .error e
      | .ok d => .ok (r, d)

/-- Lines 151-155 of `UpLook.__replaceLookup`: an empty (stripped)
reference section means no reference and no default, otherwise the text is
handed to `__processRef`. -/
def refpairOf (ref : List Char) : Except Err (RefVal × RefVal) :=
  if ref = [] then .ok (.undef, .undef) else processRef ref

/-- A Python value as it appears in the keyword arguments and in the
resolved tree: `none`, booleans, ints, floats (kept as literal text),
strings and (possibly nested) dicts as insertion-ordered association
lists. -/
inductive PyVal where
  | none
  | bool (b : Bool)
  | int (n : Int)
  | float (lit : String)
  | str (s : String)
  | dict (entries : List (String × PyVal))
deriving Repr

/-- Python `str()` of a reference value, used to format error messages.
The `undef` case is never reached: a lookup with an `Undef` reference
takes the no-argument path, which formats nothing. -/
def refValRepr : RefVal → String
  | .undef => "Undef"
  | .null => "None"
  | .bool true => "True"
  | .bool false => "False"
  | .int n => toString n
  | .float lit => lit
  | .str s => s

/-- A non-`Undef` default (or reference) value flowing into the resolved
tree keeps its Python identity; `undef` is unreachable here because an
`Undef` default raises `NoSuchValue` instead of being returned. -/
def refToPy : RefVal → PyVal
  | .undef => .none
  | .null => .none
  | .bool b => .bool b
  | .int n => .int n
  | .float lit => .float lit
  | .str s => .str s

/-- Outcome of invoking a caller-registered lookup function: a value, an
`uplook.errors.NoSuchValue`, or any other exception. -/
inductive LookupResult where
  | ok (v : PyVal)
  | noSuchValue (msg : String)
  | err (msg : String)

/-- A registered lookup function, callable with zero arguments or with
one (the parsed reference value).  Calling a Python function with the
wrong arity is itself a `TypeError`, which the `err` outcome covers. -/
structure LookupFn where
  call0 : LookupResult
  call1 : RefVal → LookupResult

/-- Python `d[key]` lookup on an insertion-ordered dict (keys unique). -/
def lookupEntry (k : String) : List (String × α) → Option α
  | [] => Option.none
  | (k', v) :: rest => if k' = k then some v else lookupEntry k rest

/-- Python `d[key] = value`: overwrite in place, or append a new key. -/
def setEntry (k : String) (v : α) : List (String × α) → List (String × α)
  | [] => [(k, v)]
  | (k', v') :: rest => if k' = k then (k, v) :: rest else (k', v') :: setEntry k v rest

/-- A node of the resolved tree held by the value `Container`: a plain
value, one of the two deferred closures produced by
`UpLook.__generateDynamicLookup`, or a nested `Container`. -/
inductive RTree where
  | val (v : PyVal)
  | thunk0 (f : String)
  | thunk1 (f : String) (r : RefVal) (d : RefVal)
  | node (entries : List (String × RTree))

/-- The closure `lookupNoRef` of `UpLook.__generateDynamicLookup`
(lines 192-193): fetch the function from the current registry and call it
with no arguments; nothing is caught, so both `NoSuchValue` and any other
exception propagate. -/
def lookupNoRefEval (reg : List (String × LookupFn)) (f : String) : Except Err PyVal :=
  match lookupEntry f reg with
  | Option.none => .error (.keyError f)
  | some fn =>
    match fn.call0 with
    | .ok v => .ok v
    | .noSuchValue m => .error (.noSuchValue m)
    | .err m => .error (.exceptionErr m)

/-- The closure `lookupRef` of `UpLook.__generateDynamicLookup`
(lines 195-202): `NoSuchValue` falls back to the default when one was
supplied and otherwise re-raises; every other exception propagates. -/
def lookupRefEval (reg : List (String × LookupFn)) (f : String) (r d : RefVal) :
    Except Err PyVal :=
  match lookupEntry f reg with
  | Option.none => .error (.keyError f)
  | some fn =>
    match fn.call1 r with
    | .ok v => .ok v
    | .noSuchValue _ =>
      match d with
      | .undef => .error (.noSuchValue ("'" ++ refValRepr r ++ "' does not return any value."))
      | _ => .ok (refToPy d)
    | .err m => .error (.exceptionErr m)

/-- `UpLook.__generateStaticLookup` (lines 209-230): its `if/else` body is
character-for-character the pair of closures of
`__generateDynamicLookup`, only run immediately at compile time, so the
two shared evaluators above embed it exactly. -/
def generateStaticLookup (reg : List (String × LookupFn)) (f : String) (r d : RefVal) :
    Except Err PyVal :=
  match r with
  | .undef => lookupNoRefEval reg f
  | _ => lookupRefEval reg f r d

/-- How a lookup function is invoked for a given parsed reference: with no
argument when the reference is `Undef`, else with the reference.  Used to
state claims about both the static and the dynamic path. -/
def callFn (fn : LookupFn) : RefVal → LookupResult
  | .undef => fn.call0
  | r => fn.call1 r

/-- Lines 147-148 of `UpLook.__replaceLookup`: every function name that
appears in an expression is appended once to
`self.__user_defined_functions`, registered or not. -/
def recordFn (f : String) (ufs : List String) : List String :=
  if f ∈ ufs then ufs else ufs ++ [f]

/-- `UpLook.__replaceLookup` (lines 126-162).  A string that does not
match the expression regex is returned unchanged; a matching string
records its function name, and then either resolves to `None` (function
not registered), to the immediately-computed static value, or to one of
the two deferred dynamic closures. -/
def replaceLookup (reg : List (String × LookupFn)) (ufs : List String) (value : String) :
    Except Err (RTree × List String) :=
  match matchLookup value.toList with
  | Option.none => .ok (.val (.str value), ufs)
  | some (kind, fc, rc) =>
    let f : String := ⟨fc⟩
    let ref := stripWS rc
    let ufs' := recordFn f ufs
    if (lookupEntry f reg).isSome then
      match refpairOf ref with
      | .error e => .error e
      | .ok (r, d) =>
        match kind with
        | .static =>
          match generateStaticLookup reg f r d with
          | .ok v => .ok (.val v, ufs')
          | .error e => .error e
        | .dynamic =>
          match r with
          | .undef => .ok (.thunk0 f, ufs')
          | _ => .ok (.thunk1 f r d, ufs')
    else .ok (.val .none, ufs')

mutual

/-- `UpLook.__processKwargs` (lines 106-124): walk the keyword arguments
in order, recursing into non-empty dicts, replacing lookup-expression
strings, and carrying every other value through; the result is the entry
list of a fresh `Container`.  The second component threads the in-place
mutation of `self.__user_defined_functions`. -/
def processKwargs (reg : List (String × LookupFn)) (ufs : List String) :
    List (String × PyVal) → Except Err (List (String × RTree) × List String)
  | [] => .ok ([], ufs)
  | (k, v) :: rest =>
    match processValue reg ufs v with
    | .error e => .error e
    | .ok (t, ufs1) =>
      match processKwargs reg ufs1 rest with
      | .error e => .error e
      | .ok (ts, ufs2) => .ok ((k, t) :: ts, ufs2)

/-- One value of `UpLook.__processKwargs`: `isinstance(value, dict) and
value != {}` recurses, strings go through `__replaceLookup`, and
everything else (including the empty dict) is kept as is. -/
def processValue (reg : List (String × LookupFn)) (ufs : List String) :
    PyVal → Except Err (RTree × List String)
  | .dict [] => .ok (.val (.dict []), ufs)
  | .dict (e :: es) =>
    match processKwargs reg ufs (e :: es) with
    | .error e => .error e
    | .ok (ts, u) => .ok (.node ts, u)
  | .str s => replaceLookup reg ufs s
  | .none => .ok (.val .none, ufs)
  | .bool b => .ok (.val (.bool b), ufs)
  | .int n => .ok (.val (.int n), ufs)
  | .float lit => .ok (.val (.float lit), ufs)

end

mutual

/-- The read path of `Container.__getattribute__` (lines 40-51) for a
stored value: a nested `Container` is flattened with `dict(value)`, a
callable (one of the dynamic closures) is invoked against the current
registry, anything else is returned as is. -/
def resolveOnRead (reg : List (String × LookupFn)) : RTree → Except Err PyVal
  | .val v => .ok v
  | .thunk0 f => lookupNoRefEval reg f
  | .thunk1 f r d => lookupRefEval reg f r d
  | .node es =>
    match containerToDict reg es with
    | .error e => .error e
    | .ok l => .ok (.dict l)

/-- `dict(container)` via `Container.__iter__` (lines 61-69): callables
are invoked, nested containers flattened recursively, plain values kept. -/
def containerToDict (reg : List (String × LookupFn)) :
    List (String × RTree) → Except Err (List (String × PyVal))
  | [] => .ok []
  | (k, t) :: rest =>
    match resolveOnRead reg t with
    | .error e => .error e
    | .ok v =>
      match containerToDict reg rest with
      | .error e => .error e
      | .ok vs => .ok ((k, v) :: vs)

end

/-- `Container.__getattribute__` (lines 40-51) on an instance attribute:
a missing attribute raises `NoSuchValue` naming the attribute, a present
one is resolved on read. -/
def containerGet (reg : List (String × LookupFn)) (entries : List (String × RTree))
    (k : String) : Except Err PyVal :=
  match lookupEntry k entries with
  | Option.none => .error (.noSuchValue ("'" ++ k ++ "' is an unknown value."))
  | some t => resolveOnRead reg t

/-- Attribute assignment on a `Container`.  The class defines no
`__setattr__` guard, so `setattr` is plain object attribute assignment on
the instance dict: overwrite or append. -/
def containerSet (entries : List (String × RTree)) (k : String) (t : RTree) :
    List (String × RTree) :=
  setEntry k t entries

/-- The attributes of an `UpLook` instance: the `__lock` flag, the stored
raw keyword arguments, the lookup registry, the recorded function names
and the entry list of the `value` container. -/
structure UpLookState where
  lock : Bool
  kwargs : List (String × PyVal)
  lookup : List (String × LookupFn)
  userDefinedFunctions : List String
  valueEntries : List (String × RTree)

/-- `UpLook.__setattr__` (lines 271-276): while `self.__lock` holds every
attribute assignment raises; otherwise the write goes through.  `s'` is
the state the blocked write would have produced. -/
def uplookSetattr (s : UpLookState) (s' : UpLookState) : Except Err UpLookState :=
  if s.lock then .error (.exceptionErr "Cannot set values on this object.")
  else .ok s'

/-- `UpLook.__init__` (lines 96-104): the lock starts out clear, the raw
keyword arguments are stored, the registry starts empty, the tree is
compiled once, and the lock is then set.  An exception during compilation
aborts construction. -/
def uplookInit (kwargs : List (String × PyVal)) : Except Err UpLookState :=
  match processKwargs [] [] kwargs with
  | .error e => .error e
  | .ok (entries, ufs) =>
    .ok { lock := true, kwargs := kwargs, lookup := [],
          userDefinedFunctions := ufs, valueEntries := entries }

/-- `UpLook.registerLookup` (lines 341-355): the lock flag is cleared by
writing the instance `__dict__` directly (bypassing `__setattr__`), the
function is stored by mutating the registry dict in place (overwriting a
previous binding), `self.value = self.__processKwargs(self.__kwargs)`
recompiles from the originally stored arguments and goes through
`__setattr__` - which succeeds because the lock was just cleared - and
the lock is finally restored through the `__dict__` again. -/
def registerLookup (s : UpLookState) (key : String) (fn : LookupFn) :
    Except Err UpLookState :=
  let s1 : UpLookState := { s with lock := false }
  let s2 : UpLookState := { s1 with lookup := setEntry key fn s1.lookup }
  match processKwargs s2.lookup s2.userDefinedFunctions s2.kwargs with
  | .error e => .error e
  | .ok (entries, ufs) =>
    let s3 : UpLookState := { s2 with userDefinedFunctions := ufs }
    match uplookSetattr s3 { s3 with valueEntries := entries } with
    | .error e => .error e
    | .ok s4 => .ok { s4 with lock := true }

/-- The `dictLookup` helper of the repository's test suite: a lookup
backed by the dict mapping "one"/"two"/"three" to "een"/"twee"/"drie",
raising `NoSuchValue` for any other key and a `TypeError` when called
without an argument. -/
def dictLookupFn : LookupFn where
  call0 := .err "dictLookup() missing 1 required positional argument: key"
  call1 := fun r =>
    match r with
    | .str "one" => .ok (.str "een")
    | .str "two" => .ok (.str "twee")
    | .str "three" => .ok (.str "drie")
    | r => .noSuchValue (refValRepr r ++ " does not return any value")

/-- The `badLookup` helper of the repository's test suite: a function
that raises a plain `Exception` whatever it is called with. -/
def badLookupFn : LookupFn where
  call0 := .err "I am a bad lookupfunction"
  call1 := fun _ => .err "I am a bad lookupfunction"

/-- A concrete `UpLook` state: the result of `UpLook(one=1)`.  Used to
instantiate hypotheses in closed witness statements. -/
def stateOneInt : UpLookState where
  lock := true
  kwargs := [("one", PyVal.int 1)]
  lookup := []
  userDefinedFunctions := []
  valueEntries := [("one", RTree.val (PyVal.int 1))]

/-- A concrete `UpLook` state: the result of
`UpLook(one='~lookup("one")')` before any function is registered. -/
def stateStaticOne : UpLookState where
  lock := true
  kwargs := [("one", PyVal.str "~lookup(\"one\")")]
  lookup := []
  userDefinedFunctions := ["lookup"]
  valueEntries := [("one", RTree.val PyVal.none)]

/-- The state `stateStaticOne` reaches after
`registerLookup("lookup", dictLookup)`. -/
def stateStaticOneReg : UpLookState where
  lock := true
  kwargs := [("one", PyVal.str "~lookup(\"one\")")]
  lookup := [("lookup", dictLookupFn)]
  userDefinedFunctions := ["lookup"]
  valueEntries := [("one", RTree.val (PyVal.str "een"))]

/-- The closure chosen by `UpLook.__generateDynamicLookup` (lines
204-207): `lookupNoRef` when the reference is `Undef`, else `lookupRef`. -/
def dynThunk (f : String) (r d : RefVal) : RTree :=
  match r with
  | .undef => .thunk0 f
  | _ => .thunk1 f r d

/-- The two shapes the regex piece `\s?` can take: nothing, or exactly
one whitespace character. -/
def wsOpt (l : List Char) : Prop := l = [] ∨ ∃ c, isWS c = true ∧ l = [c]

/-- The sigil text of an expression kind. -/
def sigilChars : LookupKind → List Char
  | .static => ['~']
  | .dynamic => ['~', '~']

/- ------------------------------------------------------------------ -/
/- Helper lemmas shared by several claims.                            -/
/- ------------------------------------------------------------------ -/

/-- Unfolding `__replaceLookup` once the expression regex has matched. -/
theorem replaceLookup_eq_of_match {v : String} {kind : LookupKind} {fc rc : List Char}
    (reg : List (String × LookupFn)) (ufs : List String)
    (hm : matchLookup v.toList = some (kind, fc, rc)) :
    replaceLookup reg ufs v =
      (if (lookupEntry (String.mk fc) reg).isSome then
        match refpairOf (stripWS rc) with
        | .error e => .error e
        | .ok (r, d) =>
          match kind with
          | .static =>
            match generateStaticLookup reg (String.mk fc) r d with
            | .ok w => .ok (.val w, recordFn (String.mk fc) ufs)
            | .error e => .error e
          | .dynamic =>
            match r with
            | .undef => .ok (.thunk0 (String.mk fc), recordFn (String.mk fc) ufs)
            | _ => .ok (.thunk1 (String.mk fc) r d, recordFn (String.mk fc) ufs)
      else .ok (.val .none, recordFn (String.mk fc) ufs)) := by
  simp only [replaceLookup, hm]
  cases kind <;> rfl

/-- `d[k] = v` makes `d[k]` return `v`. -/
theorem lookupEntry_setEntry_self {α : Type} (k : String) (v : α)
    (l : List (String × α)) : lookupEntry k (setEntry k v l) = some v := by
  induction l with
  | nil => simp [setEntry, lookupEntry]
  | cons head tail ih =>
    obtain ⟨k', v'⟩ := head
    by_cases h : k' = k
    · simp [setEntry, lookupEntry, h]
    · simp [setEntry, lookupEntry, h, ih]

/- ------------------------------------------------------------------ -/
/- Claims.                                                            -/
/- ------------------------------------------------------------------ -/

/-- C9: reading a key that is not present in the resolved tree from the
value container raises the distinguished `NoSuchValue` error naming the
key as an unknown value, not a generic attribute error. -/
theorem c9_missing_key_raises_noSuchValue
    (reg : List (String × LookupFn)) (entries : List (String × RTree)) (k : String)
    (h : lookupEntry k entries = Option.none) :
    containerGet reg entries k =
      .error (.noSuchValue ("'" ++ k ++ "' is an unknown value.")) := by
  unfold containerGet
  rw [h]

theorem c9_witness :
    lookupEntry "two" [("one", RTree.val (PyVal.str "een"))] = Option.none ∧
      containerGet [] [("one", RTree.val (PyVal.str "een"))] "two" =
        .error (.noSuchValue ("'" ++ "two" ++ "' is an unknown value.")) :=
  ⟨rfl, c9_missing_key_raises_noSuchValue [] _ "two" rfl⟩

/-- C2: an argument whose value is a lookup-shaped string naming a
function that is not registered resolves to `None` (no error), both
through `__replaceLookup` under any registry lacking the name (which is
what every recompilation runs) and at construction, where the registry is
always empty. -/
theorem c2_unregistered_function_yields_null
    (reg : List (String × LookupFn)) (ufs : List String) (v : String)
    (kind : LookupKind) (fc rc : List Char)
    (hm : matchLookup v.toList = some (kind, fc, rc))
    (hreg : lookupEntry (String.mk fc) reg = Option.none) :
    replaceLookup reg ufs v = .ok (.val .none, recordFn (String.mk fc) ufs) ∧
      ∀ k : String,
        uplookInit [(k, .str v)] =
          .ok { lock := true, kwargs := [(k, .str v)], lookup := [],
                userDefinedFunctions := recordFn (String.mk fc) [],
                valueEntries := [(k, .val .none)] } ∧
        containerGet [] [(k, RTree.val PyVal.none)] k = .ok .none := by
  constructor
  · rw [replaceLookup_eq_of_match reg ufs hm, hreg]
    rfl
  · intro k
    have h2 : replaceLookup [] [] v = .ok (.val .none, recordFn (String.mk fc) []) := by
      rw [replaceLookup_eq_of_match [] [] hm]
      rfl
    constructor
    · simp [uplookInit, processKwargs, processValue, h2]
    · simp [containerGet, lookupEntry, resolveOnRead]

theorem c2_witness :
    matchLookup ("~lookup(\"one\")").toList =
      some (.static, "lookup".toList, "\"one\"".toList) ∧
    lookupEntry (String.mk ("lookup".toList)) ([] : List (String × LookupFn)) =
      Option.none ∧
    replaceLookup [] [] "~lookup(\"one\")" =
      .ok (.val .none, recordFn (String.mk ("lookup".toList)) []) :=
  ⟨rfl, rfl,
    (c2_unregistered_function_yields_null [] [] "~lookup(\"one\")" .static
      "lookup".toList "\"one\"".toList rfl rfl).1⟩

/-- C4 counterexample: assigning to an attribute of the value container
does not raise - the `Container` of `uplook/__init__.py` defines no
write guard - and the stored value is replaced, as the repository's own
`test_setValue` asserts.  This refutes the claim that such a mutation
raises a read-only violation and leaves the value unchanged. -/
theorem c4_counterexample_container_mutation_succeeds :
    containerSet [("one", RTree.val (PyVal.int 1))] "one" (RTree.val (PyVal.str "een")) =
      [("one", RTree.val (PyVal.str "een"))] ∧
    containerGet [] [("one", RTree.val (PyVal.str "een"))] "one" = .ok (.str "een") :=
  ⟨rfl, rfl⟩

/-- C4 amended: attribute assignment on the resolved value container
succeeds - it overwrites (or adds) the entry, and a subsequent read of
that key returns the new value. -/
theorem c4_container_set_updates
    (entries : List (String × RTree)) (k : String) (w : PyVal)
    (reg : List (String × LookupFn)) :
    containerGet reg (containerSet entries k (.val w)) k = .ok w := by
  unfold containerGet containerSet
  rw [lookupEntry_setEntry_self]
  rfl

/-- C6, the reference evaluator at the failing input: a field with a
trailing double-quote but no leading one is typed as a string with all
quote characters removed, because the source checks
`value.endswith('"')` twice instead of checking `startswith` and
`endswith`; per the specified precedence this field should have fallen
through to an evaluation failure. -/
theorem c6_trailing_quote_only_typed_as_string :
    getString (some ("abc\"".toList)) = .ok (.str "abc") := rfl

/-- C7: a lookup expression whose quoted reference contains a literal
close-parenthesis parses the argument text up to the close-paren that
ends the string, so the full reference `one)` is extracted. -/
theorem c7_embedded_close_paren_in_quotes
    (reg : List (String × LookupFn)) (ufs : List String) (fn : LookupFn)
    (hreg : lookupEntry "lookup" reg = some fn) :
    replaceLookup reg ufs "~~lookup(\"one)\")" =
      .ok (.thunk1 "lookup" (.str "one)") .undef, recordFn "lookup" ufs) := by
  have hm : matchLookup ("~~lookup(\"one)\")").toList =
      some (.dynamic, "lookup".toList, "\"one)\"".toList) := rfl
  rw [replaceLookup_eq_of_match reg ufs hm]
  have hs : String.mk ("lookup".toList) = "lookup" := rfl
  rw [hs, hreg]
  rfl

theorem c7_witness :
    lookupEntry "lookup" [("lookup", dictLookupFn)] = some dictLookupFn ∧
    replaceLookup [("lookup", dictLookupFn)] [] "~~lookup(\"one)\")" =
      .ok (.thunk1 "lookup" (.str "one)") .undef, recordFn "lookup" []) :=
  ⟨rfl, c7_embedded_close_paren_in_quotes _ _ _ rfl⟩

/-- C10: once construction has completed the lock flag is set, so every
direct attribute assignment on the engine raises (leaving the state as
it was, no successor state being produced), and a successful
`registerLookup` - which works by clearing the lock through the instance
dict, writing, and restoring it - leaves the engine locked again. -/
theorem c10_engine_locked_after_construction
    (kwargs : List (String × PyVal)) (s : UpLookState)
    (hinit : uplookInit kwargs = .ok s) :
    s.lock = true ∧
      (∀ s' : UpLookState,
        uplookSetattr s s' = .error (.exceptionErr "Cannot set values on this object.")) ∧
      (∀ (name : String) (fn : LookupFn) (s2 : UpLookState),
        registerLookup s name fn = .ok s2 → s2.lock = true) := by
  have hlock : s.lock = true := by
    unfold uplookInit at hinit
    cases hp : processKwargs [] [] kwargs with
    | error e => rw [hp] at hinit; cases hinit
    | ok p =>
      rw [hp] at hinit
      obtain ⟨entries, ufs⟩ := p
      injection hinit with h
      subst h
      rfl
  refine ⟨hlock, ?_, ?_⟩
  · intro s'
    unfold uplookSetattr
    rw [hlock]
    rfl
  · intro name fn s2 hr
    simp only [registerLookup] at hr
    cases hp2 : processKwargs (setEntry name fn s.lookup) s.userDefinedFunctions s.kwargs with
    | error e => rw [hp2] at hr; cases hr
    | ok p =>
      rw [hp2] at hr
      obtain ⟨entries, ufs⟩ := p
      simp only [uplookSetattr] at hr
      simp at hr
      rw [← hr]

theorem c10_witness :
    uplookInit [("one", PyVal.int 1)] = .ok stateOneInt ∧
      uplookSetattr stateOneInt stateOneInt =
        .error (.exceptionErr "Cannot set values on this object.") :=
  ⟨rfl, (c10_engine_locked_after_construction [("one", PyVal.int 1)] stateOneInt rfl).2.1
    stateOneInt⟩

/-- How `__generateStaticLookup` behaves when the function signals
"no such value": with an `Undef` reference the exception is uncaught,
with an `Undef` default it is re-raised, and otherwise the default is
returned. -/
theorem generateStatic_noSuchValue_cases
    (reg : List (String × LookupFn)) (f : String) (fn : LookupFn)
    (r d : RefVal) (msg : String)
    (hreg : lookupEntry f reg = some fn)
    (hc : callFn fn r = .noSuchValue msg) :
    ((d = .undef ∨ r = .undef) →
      ∃ m, generateStaticLookup reg f r d = .error (.noSuchValue m)) ∧
    (d ≠ .undef → r ≠ .undef → generateStaticLookup reg f r d = .ok (refToPy d)) := by
  cases r <;> simp only [callFn] at hc <;>
    cases d <;>
      simp [generateStaticLookup, lookupNoRefEval, lookupRefEval, hreg, hc]

/-- `__generateStaticLookup` when the function returns a value. -/
theorem generateStatic_ok
    (reg : List (String × LookupFn)) (f : String) (fn : LookupFn)
    (r d : RefVal) (w : PyVal)
    (hreg : lookupEntry f reg = some fn)
    (hc : callFn fn r = .ok w) :
    generateStaticLookup reg f r d = .ok w := by
  cases r <;> simp only [callFn] at hc <;>
    simp [generateStaticLookup, lookupNoRefEval, lookupRefEval, hreg, hc]

/-- C1: a static lookup whose registered function signals "no such
value" resolves to the supplied default, and with no default the
compilation - run at construction and at registration time - raises
`NoSuchValue`.  (A lookup with no reference at all can carry no default,
and its uncaught invocation likewise raises `NoSuchValue`.) -/
theorem c1_static_noSuchValue_default_or_fatal
    (reg : List (String × LookupFn)) (ufs : List String) (v : String)
    (fc rc : List Char) (fn : LookupFn) (r d : RefVal) (msg : String)
    (hm : matchLookup v.toList = some (.static, fc, rc))
    (hreg : lookupEntry (String.mk fc) reg = some fn)
    (hrp : refpairOf (stripWS rc) = .ok (r, d))
    (hc : callFn fn r = .noSuchValue msg) :
    ((d = .undef ∨ r = .undef) →
      ∃ m, replaceLookup reg ufs v = .error (.noSuchValue m)) ∧
    (d ≠ .undef → r ≠ .undef →
      replaceLookup reg ufs v =
        .ok (.val (refToPy d), recordFn (String.mk fc) ufs)) := by
  have hg := generateStatic_noSuchValue_cases reg (String.mk fc) fn r d msg hreg hc
  constructor
  · intro hd
    obtain ⟨m, hgen⟩ := hg.1 hd
    refine ⟨m, ?_⟩
    rw [replaceLookup_eq_of_match reg ufs hm, hreg]
    simp [hrp, hgen]
  · intro hd hr
    have hgen := hg.2 hd hr
    rw [replaceLookup_eq_of_match reg ufs hm, hreg]
    simp [hrp, hgen]

theorem c1_witness :
    refpairOf (stripWS ("\"four\", \"default\"".toList)) =
      .ok (.str "four", .str "default") ∧
    callFn dictLookupFn (.str "four") =
      .noSuchValue "four does not return any value" ∧
    replaceLookup [("lookup", dictLookupFn)] [] "~lookup(\"four\", \"default\")" =
      .ok (.val (refToPy (.str "default")), recordFn (String.mk ("lookup".toList)) []) ∧
    replaceLookup [("lookup", dictLookupFn)] [] "~lookup(\"four\")" =
      .error (.noSuchValue "'four' does not return any value.") :=
  ⟨rfl, rfl,
    (c1_static_noSuchValue_default_or_fatal [("lookup", dictLookupFn)] []
      "~lookup(\"four\", \"default\")" "lookup".toList "\"four\", \"default\"".toList
      dictLookupFn (.str "four") (.str "default") "four does not return any value"
      rfl rfl rfl rfl).2 (by decide) (by decide),
    rfl⟩

/-- C3: when the registered function raises anything other than
NoSuchValue, the error propagates - at compile time for a static lookup
and at read time for a dynamic one - and is never replaced by the
default, whatever the default is. -/
theorem c3_lookup_error_propagates
    (reg : List (String × LookupFn)) (ufs : List String) (v : String)
    (kind : LookupKind) (fc rc : List Char) (fn : LookupFn)
    (r d : RefVal) (msg : String)
    (hm : matchLookup v.toList = some (kind, fc, rc))
    (hreg : lookupEntry (String.mk fc) reg = some fn)
    (hrp : refpairOf (stripWS rc) = .ok (r, d))
    (hc : callFn fn r = .err msg) :
    (kind = .static →
      replaceLookup reg ufs v = .error (.exceptionErr msg)) ∧
    (kind = .dynamic →
      replaceLookup reg ufs v =
        .ok (dynThunk (String.mk fc) r d, recordFn (String.mk fc) ufs) ∧
      resolveOnRead reg (dynThunk (String.mk fc) r d) =
        .error (.exceptionErr msg)) := by
  have hgen : generateStaticLookup reg (String.mk fc) r d = .error (.exceptionErr msg) := by
    cases r <;> simp only [callFn] at hc <;>
      simp [generateStaticLookup, lookupNoRefEval, lookupRefEval, hreg, hc]
  constructor
  · intro hk
    subst hk
    rw [replaceLookup_eq_of_match reg ufs hm, hreg]
    simp [hrp, hgen]
  · intro hk
    subst hk
    constructor
    · rw [replaceLookup_eq_of_match reg ufs hm, hreg]
      cases r <;> simp [hrp, dynThunk]
    · cases r <;> simp only [callFn] at hc <;>
        simp [dynThunk, resolveOnRead, lookupNoRefEval, lookupRefEval, hreg, hc]

theorem c3_witness :
    callFn badLookupFn (.str "test") = .err "I am a bad lookupfunction" ∧
    replaceLookup [("lookup", badLookupFn)] [] "~lookup(\"test\", true)" =
      .error (.exceptionErr "I am a bad lookupfunction") ∧
    replaceLookup [("lookup", badLookupFn)] [] "~~lookup(\"test\", true)" =
      .ok (dynThunk "lookup" (.str "test") (.bool true), recordFn "lookup" []) ∧
    resolveOnRead [("lookup", badLookupFn)] (dynThunk "lookup" (.str "test") (.bool true)) =
      .error (.exceptionErr "I am a bad lookupfunction") :=
  ⟨rfl,
    (c3_lookup_error_propagates [("lookup", badLookupFn)] [] "~lookup(\"test\", true)"
      .static "lookup".toList "\"test\", true".toList badLookupFn
      (.str "test") (.bool true) "I am a bad lookupfunction" rfl rfl rfl rfl).1 rfl,
    ((c3_lookup_error_propagates [("lookup", badLookupFn)] [] "~~lookup(\"test\", true)"
      .dynamic "lookup".toList "\"test\", true".toList badLookupFn
      (.str "test") (.bool true) "I am a bad lookupfunction" rfl rfl rfl rfl).2 rfl).1,
    ((c3_lookup_error_propagates [("lookup", badLookupFn)] [] "~~lookup(\"test\", true)"
      .dynamic "lookup".toList "\"test\", true".toList badLookupFn
      (.str "test") (.bool true) "I am a bad lookupfunction" rfl rfl rfl rfl).2 rfl).2⟩

/-- C5: `registerLookup` stores the function under the given name
(overwriting any previous binding, as `setEntry` does) and rebuilds the
whole resolved tree with `__processKwargs` from the originally stored
constructor arguments; consequently, for an engine built from a single
argument whose static expression names the registered function, the key
resolved to null before registration and resolves to the function's
value afterwards. -/
theorem c5_registerLookup_stores_and_rebuilds
    (kwargs : List (String × PyVal)) (s : UpLookState) (name : String)
    (fn : LookupFn) (s2 : UpLookState)
    (hinit : uplookInit kwargs = .ok s)
    (hreg : registerLookup s name fn = .ok s2) :
    s2.lookup = setEntry name fn s.lookup ∧
    s.kwargs = kwargs ∧
    processKwargs s2.lookup s.userDefinedFunctions kwargs =
      .ok (s2.valueEntries, s2.userDefinedFunctions) ∧
    (∀ (k v : String) (fc rc : List Char) (r d : RefVal) (w : PyVal),
      kwargs = [(k, .str v)] →
      matchLookup v.toList = some (.static, fc, rc) →
      String.mk fc = name →
      refpairOf (stripWS rc) = .ok (r, d) →
      callFn fn r = .ok w →
      containerGet s.lookup s.valueEntries k = .ok .none ∧
      containerGet s2.lookup s2.valueEntries k = .ok w) := by
  unfold uplookInit at hinit
  cases hp : processKwargs [] [] kwargs with
  | error e => rw [hp] at hinit; cases hinit
  | ok p =>
    rw [hp] at hinit
    obtain ⟨entries0, ufs0⟩ := p
    injection hinit with h
    subst h
    simp only [registerLookup] at hreg
    cases hp2 : processKwargs (setEntry name fn []) ufs0 kwargs with
    | error e => rw [hp2] at hreg; cases hreg
    | ok p2 =>
      rw [hp2] at hreg
      obtain ⟨entries1, ufs1⟩ := p2
      simp only [uplookSetattr] at hreg
      simp at hreg
      subst hreg
      refine ⟨rfl, rfl, hp2, ?_⟩
      intro k v fc rc r d w hkw hm hname hrp hc
      subst hkw
      subst hname
      have hrepl0 : replaceLookup [] [] v =
          .ok (.val .none, recordFn (String.mk fc) []) := by
        rw [replaceLookup_eq_of_match [] [] hm]
        rfl
      have hrepl1 : replaceLookup (setEntry (String.mk fc) fn []) ufs0 v =
          .ok (.val w, recordFn (String.mk fc) ufs0) := by
        rw [replaceLookup_eq_of_match (setEntry (String.mk fc) fn []) ufs0 hm,
          lookupEntry_setEntry_self]
        have hgen := generateStatic_ok (setEntry (String.mk fc) fn [])
          (String.mk fc) fn r d w (lookupEntry_setEntry_self _ _ _) hc
        simp [hrp, hgen]
      simp only [processKwargs, processValue, hrepl0] at hp
      simp only [processKwargs, processValue, hrepl1] at hp2
      simp at hp hp2
      constructor
      · rw [← hp.1]
        simp [containerGet, lookupEntry, resolveOnRead]
      · rw [← hp2.1]
        simp [containerGet, lookupEntry, resolveOnRead]

theorem c5_witness :
    uplookInit [("one", PyVal.str "~lookup(\"one\")")] = .ok stateStaticOne ∧
    registerLookup stateStaticOne "lookup" dictLookupFn = .ok stateStaticOneReg ∧
    callFn dictLookupFn (.str "one") = .ok (.str "een") ∧
    containerGet stateStaticOne.lookup stateStaticOne.valueEntries "one" = .ok .none ∧
    containerGet stateStaticOneReg.lookup stateStaticOneReg.valueEntries "one" =
      .ok (.str "een") :=
  ⟨rfl, rfl, rfl,
    ((c5_registerLookup_stores_and_rebuilds [("one", PyVal.str "~lookup(\"one\")")]
      stateStaticOne "lookup" dictLookupFn stateStaticOneReg rfl rfl).2.2.2
      "one" "~lookup(\"one\")" "lookup".toList "\"one\"".toList
      (.str "one") .undef (.str "een") rfl rfl rfl rfl rfl).1,
    ((c5_registerLookup_stores_and_rebuilds [("one", PyVal.str "~lookup(\"one\")")]
      stateStaticOne "lookup" dictLookupFn stateStaticOneReg rfl rfl).2.2.2
      "one" "~lookup(\"one\")" "lookup".toList "\"one\"".toList
      (.str "one") .undef (.str "een") rfl rfl rfl rfl rfl).2⟩

/-- A whitespace character is not a word character. -/
theorem ws_not_word {c : Char} (h : isWS c = true) : isWordChar c = false := by
  simp only [isWS, Bool.or_eq_true, beq_iff_eq] at h
  rcases h with ((((h | h) | h) | h) | h) | h <;> subst h <;> decide

/-- A word character is not whitespace. -/
theorem word_not_ws {c : Char} (h : isWordChar c = true) : isWS c = false := by
  cases hw : isWS c with
  | false => rfl
  | true => rw [ws_not_word hw] at h; cases h

/-- `takeWhile`/`dropWhile` split an append whose left part satisfies the
predicate everywhere and whose right part starts with a failure. -/
theorem takeWhile_append_split {p : Char → Bool} {l2 : List Char}
    (h2 : ∀ c, l2.head? = some c → p c = false) :
    ∀ l1 : List Char, (∀ c ∈ l1, p c = true) →
      (l1 ++ l2).takeWhile p = l1 ∧ (l1 ++ l2).dropWhile p = l2 := by
  intro l1
  induction l1 with
  | nil =>
    intro _
    simp only [List.nil_append]
    cases hl : l2 with
    | nil => exact ⟨rfl, rfl⟩
    | cons c t =>
      have hc := h2 c (by rw [hl]; rfl)
      constructor
      · simp [List.takeWhile_cons, hc]
      · simp [List.dropWhile_cons, hc]
  | cons a t ih =>
    intro h1
    have ha : p a = true := h1 a (by simp)
    obtain ⟨ih1, ih2⟩ := ih (fun c hc => h1 c (by simp [hc]))
    constructor
    · simp [List.takeWhile_cons, ha, ih1]
    · simp [List.dropWhile_cons, ha, ih2]

/-- Dropping whitespace ignores an all-whitespace prefix. -/
theorem dropWhile_ws_append :
    ∀ pad : List Char, (∀ c ∈ pad, isWS c = true) →
      ∀ l : List Char, (pad ++ l).dropWhile isWS = l.dropWhile isWS := by
  intro pad
  induction pad with
  | nil => intro _ l; rfl
  | cons c t ih =>
    intro h l
    have hc : isWS c = true := h c (by simp)
    simp only [List.cons_append, List.dropWhile_cons, hc, if_true]
    exact ih (fun x hx => h x (by simp [hx])) l

/-- Dropping whitespace distributes over an append whose left part
contains at least one non-whitespace character. -/
theorem dropWhile_ws_append_of_stops :
    ∀ a : List Char, (¬ ∀ c ∈ a, isWS c = true) →
      ∀ b : List Char, (a ++ b).dropWhile isWS = a.dropWhile isWS ++ b := by
  intro a
  induction a with
  | nil => intro h; exact absurd (by simp) h
  | cons c t ih =>
    intro h b
    cases hc : isWS c with
    | true =>
      have ht : ¬ ∀ x ∈ t, isWS x = true := by
        intro hall
        refine h ?_
        intro x hx
        rcases List.mem_cons.mp hx with h1 | h2
        · subst h1; exact hc
        · exact hall x h2
      simp [List.dropWhile_cons, hc, ih ht b]
    | false =>
      simp [List.dropWhile_cons, hc]

/-- Trailing whitespace is invisible to `rstrip`. -/
theorem rstripWS_append_ws (l pad : List Char) (hp : ∀ c ∈ pad, isWS c = true) :
    rstripWS (l ++ pad) = rstripWS l := by
  unfold rstripWS
  rw [List.reverse_append,
    dropWhile_ws_append pad.reverse (fun c hc => hp c (List.mem_reverse.mp hc)) l.reverse]

/-- `value.lstrip().rstrip()` is blind to whitespace padding on either
side of the argument text. -/
theorem stripWS_pad (pad1 pad2 arg : List Char)
    (hp1 : ∀ c ∈ pad1, isWS c = true) (hp2 : ∀ c ∈ pad2, isWS c = true) :
    stripWS (pad1 ++ (arg ++ pad2)) = stripWS arg := by
  unfold stripWS lstripWS
  rw [dropWhile_ws_append pad1 hp1 (arg ++ pad2)]
  by_cases hall : ∀ c ∈ arg, isWS c = true
  · have hconc : ∀ c ∈ arg ++ pad2, isWS c = true := by
      intro c hc
      rcases List.mem_append.mp hc with h | h
      exacts [hall c h, hp2 c h]
    have ha : (arg ++ pad2).dropWhile isWS = [] := by
      have := dropWhile_ws_append (arg ++ pad2) hconc []
      simpa using this
    have hb : arg.dropWhile isWS = [] := by
      have := dropWhile_ws_append arg hall []
      simpa using this
    rw [ha, hb]
  · rw [dropWhile_ws_append_of_stops arg hall pad2]
    exact rstripWS_append_ws _ pad2 hp2

/-- `\s?` before a non-whitespace character consumes exactly an optional
single whitespace character. -/
theorem skipOneWS_wsOpt (w : List Char) (hw : wsOpt w) (c : Char) (rest : List Char)
    (hc : isWS c = false) : skipOneWS (w ++ c :: rest) = c :: rest := by
  rcases hw with h | ⟨x, hx, h⟩ <;> subst h
  · simp [skipOneWS, hc]
  · simp [skipOneWS, hx]

/-- What `\s?\w+?\s?\((.*?)\)$` matches on a well-formed tail: an
optional whitespace character, a nonempty function name of word
characters, an optional whitespace character, and a parenthesised
newline-free reference text ending the string. -/
theorem matchAfterSigil_shape (kind : LookupKind) (a : Char) (fs w1 w2 ref : List Char)
    (ha : isWordChar a = true) (hfs : ∀ c ∈ fs, isWordChar c = true)
    (hw1 : wsOpt w1) (hw2 : wsOpt w2) (hn : '\n' ∉ ref) :
    matchAfterSigil kind (w1 ++ a :: (fs ++ (w2 ++ '(' :: (ref ++ [')'])))) =
      some (kind, a :: fs, ref) := by
  have hstop : ∀ c, (w2 ++ '(' :: (ref ++ [')'])).head? = some c → isWordChar c = false := by
    rcases hw2 with h | ⟨x, hx, h⟩ <;> subst h
    · intro c hc
      simp only [List.nil_append, List.head?_cons, Option.some.injEq] at hc
      subst hc
      decide
    · intro c hc
      simp only [List.cons_append, List.head?_cons, Option.some.injEq] at hc
      subst hc
      exact ws_not_word hx
  obtain ⟨htw, hdw⟩ := takeWhile_append_split hstop (a :: fs)
    (by
      intro c hc
      rcases List.mem_cons.mp hc with h | h
      · subst h; exact ha
      · exact hfs c h)
  simp only [matchAfterSigil]
  rw [skipOneWS_wsOpt w1 hw1 a _ (word_not_ws ha), ← List.cons_append, htw, hdw,
    skipOneWS_wsOpt w2 hw2 '(' (ref ++ [')']) (by decide)]
  simp [stripOneTrailingNewline, List.getLast?_concat, List.dropLast_concat, hn]

/-- The full expression regex on a well-formed value. -/
theorem matchLookup_shape (kind : LookupKind) (a : Char) (fs w1 w2 ref : List Char)
    (ha : isWordChar a = true) (hfs : ∀ c ∈ fs, isWordChar c = true)
    (hw1 : wsOpt w1) (hw2 : wsOpt w2) (hn : '\n' ∉ ref) :
    matchLookup (sigilChars kind ++ (w1 ++ a :: (fs ++ (w2 ++ '(' :: (ref ++ [')']))))) =
      some (kind, a :: fs, ref) := by
  have hshape := matchAfterSigil_shape kind a fs w1 w2 ref ha hfs hw1 hw2 hn
  cases kind with
  | dynamic => simpa [matchLookup, sigilChars] using hshape
  | static =>
    rcases hw1 with h | ⟨x, hx, h⟩ <;> subst h
    · have hne : a ≠ '~' := by
        intro h
        subst h
        rw [show isWordChar '~' = false by decide] at ha
        cases ha
      simp only [sigilChars, List.cons_append, List.nil_append, matchLookup]
      rw [if_neg hne]
      simpa using hshape
    · have hne : x ≠ '~' := by
        intro h
        subst h
        rw [show isWS '~' = false by decide] at hx
        cases hx
      simp only [sigilChars, List.cons_append, List.nil_append, matchLookup]
      rw [if_neg hne]
      simpa using hshape

/-- C8 counterexample: two spaces between the sigil and the function
name make the regex fail - `\s?` allows at most one whitespace
character - so `~~  lookup("one")` is passed through as a literal string
while its whitespace-free form parses as a dynamic lookup; the two are
not equivalent, refuting the claim that whitespace around the grammar's
tokens is ignored. -/
theorem c8_counterexample_two_spaces_not_ignored :
    matchLookup ("~~  lookup(\"one\")".toList) = Option.none ∧
    replaceLookup [("lookup", dictLookupFn)] [] "~~  lookup(\"one\")" =
      .ok (.val (.str "~~  lookup(\"one\")"), []) ∧
    replaceLookup [("lookup", dictLookupFn)] [] "~~lookup(\"one\")" =
      .ok (.thunk1 "lookup" (.str "one") .undef, ["lookup"]) :=
  ⟨rfl, rfl, rfl⟩

/-- C8 amended: at most one whitespace character is tolerated between
the sigil and the function name and between the function name and the
open-paren, while arbitrary (newline-free) whitespace padding around the
argument text is stripped; within those bounds the expression resolves
exactly like its whitespace-free form. -/
theorem c8_single_ws_and_arg_padding_ignored
    (reg : List (String × LookupFn)) (ufs : List String) (kind : LookupKind)
    (a : Char) (fs w1 w2 pad1 pad2 arg : List Char)
    (ha : isWordChar a = true) (hfs : ∀ c ∈ fs, isWordChar c = true)
    (hw1 : wsOpt w1) (hw2 : wsOpt w2)
    (hp1 : ∀ c ∈ pad1, isWS c = true) (hp2 : ∀ c ∈ pad2, isWS c = true)
    (hn1 : '\n' ∉ pad1) (hn2 : '\n' ∉ pad2) (hna : '\n' ∉ arg) :
    replaceLookup reg ufs
      (String.mk
        (sigilChars kind ++ (w1 ++ a :: (fs ++ (w2 ++ '(' :: ((pad1 ++ (arg ++ pad2)) ++ [')'])))))) =
    replaceLookup reg ufs
      (String.mk (sigilChars kind ++ ([] ++ a :: (fs ++ ([] ++ '(' :: (arg ++ [')'])))))) := by
  have hnref : '\n' ∉ pad1 ++ (arg ++ pad2) := by
    intro h
    rcases List.mem_append.mp h with h | h
    · exact hn1 h
    · rcases List.mem_append.mp h with h | h
      · exact hna h
      · exact hn2 h
  have hm1 := matchLookup_shape kind a fs w1 w2 (pad1 ++ (arg ++ pad2)) ha hfs hw1 hw2 hnref
  have hm2 := matchLookup_shape kind a fs [] [] arg ha hfs (Or.inl rfl) (Or.inl rfl) hna
  rw [replaceLookup_eq_of_match reg ufs hm1, replaceLookup_eq_of_match reg ufs hm2,
    stripWS_pad pad1 pad2 arg hp1 hp2]
  cases kind <;> rfl

theorem c8_amended_witness :
    wsOpt [' '] ∧ isWordChar 'f' = true ∧
    replaceLookup [("lookup", dictLookupFn)] []
      (String.mk
        (sigilChars .dynamic ++
          ([' '] ++ 'l' :: ("ookup".toList ++
            ([' '] ++ '(' :: (([' '] ++ ("\"one\"".toList ++ [' '])) ++ [')'])))))) =
    replaceLookup [("lookup", dictLookupFn)] []
      (String.mk
        (sigilChars .dynamic ++
          ([] ++ 'l' :: ("ookup".toList ++ ([] ++ '(' :: ("\"one\"".toList ++ [')'])))))) :=
  ⟨Or.inr ⟨' ', rfl, rfl⟩, rfl,
    c8_single_ws_and_arg_padding_ignored [("lookup", dictLookupFn)] [] .dynamic
      'l' "ookup".toList [' '] [' '] [' '] [' '] "\"one\"".toList
      (by decide) (by decide) (Or.inr ⟨' ', rfl, rfl⟩) (Or.inr ⟨' ', rfl, rfl⟩)
      (by decide) (by decide) (by decide) (by decide) (by decide)⟩

end Uplook
